import Mathlib

/-!
Verification development for the DataThief Twitter extraction pipeline
(`src/Twitter/functions.py` and `src/Twitter/kedro-nodes.py`).

The Python code is shallowly embedded: the remote Tweepy client is modelled
as a function from a call descriptor to a fetch outcome (the items the
cursor yields, and whether it then raises a `TweepyException`); the Python
functions become Lean functions returning `Except` values, where
`Except.error` is an uncaught Python exception propagating out of the
function, `Except.ok none` is the Python value `None`, and
`Except.ok (some rs)` is a normal list return.
-/

namespace DataThief

/-- An uncaught Python exception that propagates out of an extraction
function.  The only such exception in the embedded code is the `TypeError`
raised by `tweet.user.location + ''` when `location` is `None`
(`except TweepyException` does not catch it). -/
inductive PyError where
  | typeError
deriving DecidableEq

/-- An opaque entity entry (url / media / hashtag entry) as found in
`tweet.entities`; passed through unflattened by all four modes. -/
structure Entity where
  raw : String
deriving DecidableEq

/-- The `tweet.entities` dictionary: each of the three keys may be absent,
and the code reads it with `entities.get(key, [])`. -/
structure Entities where
  urls : Option (List Entity)
  media : Option (List Entity)
  hashtags : Option (List Entity)
deriving DecidableEq

/-- The author object `tweet.user` of a raw item.  `lang` and `location`
are nullable in the remote schema. -/
structure TwitterUser where
  id_str : String
  screen_name : String
  verified : Bool
  followers_count : Nat
  friends_count : Nat
  lang : Option String
  location : Option String
deriving DecidableEq

/-- A raw item as returned by the remote API.  `lang` is the post's own
declared language; it is present on the raw item although the source's
flattening steps never read it (they read `tweet.user.lang` instead). -/
structure Tweet where
  id_str : String
  created_at : String
  full_text : String
  lang : Option String
  favorite_count : Nat
  retweet_count : Nat
  entities : Entities
  user : TwitterUser
deriving DecidableEq

/-- One field of a normalized record (one slot of the Python tuple). -/
inductive Value where
  | str (s : String)
  | nat (n : Nat)
  | bool (b : Bool)
  | entityList (l : List Entity)
  | pynone
deriving DecidableEq

/-- A normalized record: the Python tuple, as a positional list of field
values.  Its length is the record's arity. -/
abbrev Record := List Value

/-- A nullable string placed directly into a record slot (e.g.
`tweet.user.lang`): Python `None` becomes `Value.pynone`. -/
def Value.ofOptStr : Option String → Value
  | some s => Value.str s
  | none => Value.pynone

/-- The behaviour of one `tweepy.Cursor(...).items(extraction_size)`
iterator: either it yields `items` and completes, or it yields `items` and
then raises a `TweepyException` (covering failure on the first page as
`failAfter []`). -/
inductive FetchOutcome where
  | ok (items : List Tweet)
  | failAfter (items : List Tweet)
deriving DecidableEq

/-- The call descriptor built by `extract_tweets_from_user_timeline` for
`tweepy.Cursor(api.user_timeline, ...)`. -/
structure TimelineCall where
  screen_name : String
  count : Nat
  tweet_mode : String
  exclude_replies : Bool
  include_rts : Bool
  extraction_size : Nat
deriving DecidableEq

/-- The call descriptor built for `tweepy.Cursor(api.search_tweets, ...)`
by the replies / search / hashtag modes.  `until_date` embeds the Python
keyword argument `until`. -/
structure SearchCall where
  q : String
  lang : String
  tweet_mode : String
  result_type : String
  count : Nat
  until_date : String
  extraction_size : Nat
deriving DecidableEq

/-- Stands for `datetime.now().strftime("%Y-%m-%d")` evaluated once at
module import, the default of the `until` parameters in `functions.py`. -/
def module_load_date : String := "2022-01-01"

/-- The tuple built for one tweet by `extract_tweets_from_user_timeline`
(functions.py lines 59-64).  The last slot is `tweet.user.location + ''`,
which raises `TypeError` when `location` is `None`. -/
def flatten_timeline_tweet (screen_name user_type : String) (t : Tweet) :
    Except PyError Record :=
  match t.user.location with
  | none => Except.error PyError.typeError
  | some loc => Except.ok
      [Value.str screen_name, Value.str user_type, Value.str t.id_str,
       Value.str t.created_at, Value.str t.full_text,
       Value.nat t.favorite_count, Value.nat t.retweet_count,
       Value.entityList (t.entities.urls.getD []),
       Value.entityList (t.entities.media.getD []),
       Value.entityList (t.entities.hashtags.getD []),
       Value.str t.user.id_str, Value.str t.user.screen_name,
       Value.bool t.user.verified, Value.nat t.user.followers_count,
       Value.nat t.user.friends_count, Value.str (loc ++ "")]

/-- The tuple built for one tweet by `extract_replies_to_user`
(functions.py lines 97-101); slot 5 is `tweet.user.lang`. -/
def flatten_reply_tweet (username language : String) (t : Tweet) :
    Except PyError Record :=
  match t.user.location with
  | none => Except.error PyError.typeError
  | some loc => Except.ok
      [Value.str username, Value.str language, Value.str t.id_str,
       Value.str t.created_at, Value.str t.full_text,
       Value.ofOptStr t.user.lang,
       Value.nat t.favorite_count, Value.nat t.retweet_count,
       Value.entityList (t.entities.urls.getD []),
       Value.entityList (t.entities.media.getD []),
       Value.entityList (t.entities.hashtags.getD []),
       Value.str t.user.id_str, Value.str t.user.screen_name,
       Value.bool t.user.verified, Value.nat t.user.followers_count,
       Value.nat t.user.friends_count, Value.str (loc ++ "")]

/-- The tuple built for one tweet by `extract_tweets_from_search`
(functions.py lines 135-139). -/
def flatten_search_tweet (query language : String) (t : Tweet) :
    Except PyError Record :=
  match t.user.location with
  | none => Except.error PyError.typeError
  | some loc => Except.ok
      [Value.str query, Value.str language, Value.str t.id_str,
       Value.str t.created_at, Value.str t.full_text,
       Value.ofOptStr t.user.lang,
       Value.nat t.favorite_count, Value.nat t.retweet_count,
       Value.entityList (t.entities.urls.getD []),
       Value.entityList (t.entities.media.getD []),
       Value.entityList (t.entities.hashtags.getD []),
       Value.str t.user.id_str, Value.str t.user.screen_name,
       Value.bool t.user.verified, Value.nat t.user.followers_count,
       Value.nat t.user.friends_count, Value.str (loc ++ "")]

/-- The tuple built for one tweet by `extract_tweets_from_hashtag`
(functions.py lines 172-176); the first slot is `f"#{hashtag}"`. -/
def flatten_hashtag_tweet (tag language : String) (t : Tweet) :
    Except PyError Record :=
  match t.user.location with
  | none => Except.error PyError.typeError
  | some loc => Except.ok
      [Value.str ("#" ++ tag), Value.str language, Value.str t.id_str,
       Value.str t.created_at, Value.str t.full_text,
       Value.ofOptStr t.user.lang,
       Value.nat t.favorite_count, Value.nat t.retweet_count,
       Value.entityList (t.entities.urls.getD []),
       Value.entityList (t.entities.media.getD []),
       Value.entityList (t.entities.hashtags.getD []),
       Value.str t.user.id_str, Value.str t.user.screen_name,
       Value.bool t.user.verified, Value.nat t.user.followers_count,
       Value.nat t.user.friends_count, Value.str (loc ++ "")]

/-- The list comprehension over the cursor's yielded items: items are
flattened in order, and the first uncaught exception aborts the whole
comprehension. -/
def flattenAll (f : Tweet → Except PyError Record) :
    List Tweet → Except PyError (List Record)
  | [] => Except.ok []
  | t :: ts =>
    match f t with
    | Except.error e => Except.error e
    | Except.ok r =>
      match flattenAll f ts with
      | Except.error e => Except.error e
      | Except.ok rs => Except.ok (r :: rs)

/-- The shared `try:` body of the four extraction functions: build the list
comprehension over the fetch's items.  If the iterator completes, the list
is returned; if a `TypeError` from flattening occurs it propagates
(uncaught); if the iterator raises a `TweepyException` after all yielded
items flattened, the `except TweepyException` branch prints and falls
through, returning Python `None` — the partial list is discarded. -/
def runExtraction (f : Tweet → Except PyError Record) :
    FetchOutcome → Except PyError (Option (List Record))
  | FetchOutcome.ok ts =>
    match flattenAll f ts with
    | Except.error e => Except.error e
    | Except.ok rs => Except.ok (some rs)
  | FetchOutcome.failAfter ts =>
    match flattenAll f ts with
    | Except.error e => Except.error e
    | Except.ok _ => Except.ok none

/-- The `tweepy.Cursor(api.user_timeline, ...)` descriptor built by
`extract_tweets_from_user_timeline` from its parameters. -/
def user_timeline_call (screen_name : String) (count : Nat)
    (tweet_mode : String) (exclude_replies include_rts : Bool)
    (extraction_size : Nat) : TimelineCall :=
  TimelineCall.mk screen_name count tweet_mode exclude_replies include_rts
    extraction_size

/-- `extract_tweets_from_user_timeline` (functions.py lines 33-69).
Python defaults: `count=200, tweet_mode='extended', exclude_replies=False,
include_rts=False, extraction_size=10000`. -/
def extract_tweets_from_user_timeline (api : TimelineCall → FetchOutcome)
    (screen_name user_type : String) (count : Nat) (tweet_mode : String)
    (exclude_replies include_rts : Bool) (extraction_size : Nat) :
    Except PyError (Option (List Record)) :=
  runExtraction (flatten_timeline_tweet screen_name user_type)
    (api (user_timeline_call screen_name count tweet_mode exclude_replies
      include_rts extraction_size))

/-- The `tweepy.Cursor(api.search_tweets, q=f"to:{username}", ...)`
descriptor built by `extract_replies_to_user`. -/
def replies_call (username : String) (count : Nat)
    (tweet_mode language result_type until_date : String)
    (extraction_size : Nat) : SearchCall :=
  SearchCall.mk ("to:" ++ username) language tweet_mode result_type count
    until_date extraction_size

/-- `extract_replies_to_user` (functions.py lines 72-107).
Python defaults: `count=200, tweet_mode='extended', language="en",
result_type='mixed', until=<module_load_date>, extraction_size=200`. -/
def extract_replies_to_user (api : SearchCall → FetchOutcome)
    (username : String) (count : Nat)
    (tweet_mode language result_type until_date : String)
    (extraction_size : Nat) : Except PyError (Option (List Record)) :=
  runExtraction (flatten_reply_tweet username language)
    (api (replies_call username count tweet_mode language result_type
      until_date extraction_size))

/-- The `tweepy.Cursor(api.search_tweets, q=query, ...)` descriptor built
by `extract_tweets_from_search`. -/
def search_call (query : String) (count : Nat)
    (tweet_mode language result_type until_date : String)
    (extraction_size : Nat) : SearchCall :=
  SearchCall.mk query language tweet_mode result_type count until_date
    extraction_size

/-- `extract_tweets_from_search` (functions.py lines 110-144). -/
def extract_tweets_from_search (api : SearchCall → FetchOutcome)
    (query : String) (count : Nat)
    (tweet_mode language result_type until_date : String)
    (extraction_size : Nat) : Except PyError (Option (List Record)) :=
  runExtraction (flatten_search_tweet query language)
    (api (search_call query count tweet_mode language result_type
      until_date extraction_size))

/-- The `tweepy.Cursor(api.search_tweets, q=f"#{hashtag}", ...)`
descriptor built by `extract_tweets_from_hashtag`. -/
def hashtag_call (tag : String) (count : Nat)
    (tweet_mode language result_type until_date : String)
    (extraction_size : Nat) : SearchCall :=
  SearchCall.mk ("#" ++ tag) language tweet_mode result_type count
    until_date extraction_size

/-- `extract_tweets_from_hashtag` (functions.py lines 147-182). -/
def extract_tweets_from_hashtag (api : SearchCall → FetchOutcome)
    (tag : String) (count : Nat)
    (tweet_mode language result_type until_date : String)
    (extraction_size : Nat) : Except PyError (Option (List Record)) :=
  runExtraction (flatten_hashtag_tweet tag language)
    (api (hashtag_call tag count tweet_mode language result_type
      until_date extraction_size))

/-- Credentials handed to `get_auth`. -/
structure Credentials where
  consumer_key : String
  consumer_secret : String
  access_token : String
  access_token_secret : String
deriving DecidableEq

/-- The `tweepy.API` object returned by `get_auth`: it carries the OAuth
credentials and `wait_on_rate_limit`. -/
structure APIHandle where
  creds : Credentials
  wait_on_rate_limit : Bool
deriving DecidableEq

/-- `get_auth` (functions.py lines 7-31).  The environment argument models
the tweepy OAuth setup calls (`OAuthHandler`, `set_access_token`,
`API`): `some e` means they raise a `TweepyException` with message `e`.
The result pairs the returned value (`none` is Python `None`, reached by
falling off the `except` block) with the printed diagnostic lines. -/
def get_auth (oauthFail : Credentials → Option String) (c : Credentials) :
    Option APIHandle × List String :=
  match oauthFail c with
  | some e => (none, ["Error authenticating with Twitter API", e])
  | none => (some (APIHandle.mk c true),
      ["Successfully authenticated with the Twitter API"])

/-! ## kedro-nodes.py: batch orchestrators

Each orchestrator is embedded as a function from the api environment and
the input table (a list of rows) to `Except PyError` of a triple
`(result table, final state of the caller's input table, trace of the
cursor calls issued)`.  The input-table component makes mutation of the
caller's DataFrame observable; the trace component makes "which extraction
calls were issued" observable.  A missing cell (pandas `NaN` / `None`) is
an `Option` that is `none`; `pd.notna` is `Option.isSome`. -/

/-- One row of the timelines input DataFrame. -/
structure TimelineRow where
  username_twitter : Option String
  type : String
deriving DecidableEq

/-- One row of the replies / search-users input DataFrame. -/
structure UserRow where
  username_twitter : Option String
deriving DecidableEq

/-- One row of the hashtags input DataFrame: the `hashtag` column, plus the
`text` column that `extract_tweets_from_hashtags` writes (absent before the
write unless the caller supplied one). -/
structure HashtagRow where
  hashtag : String
  text : Option String
deriving DecidableEq

/-- One row of the queries input DataFrame.  `extract_tweets_from_queries`
reads the `query` cell with no `pd.notna` guard. -/
structure QueryRow where
  query : String
deriving DecidableEq

/-- The per-row guard `if x is not None and len(x) > 0: accumulator.extend(x)`:
the records contributed by one extraction result. -/
def keptRecords : Option (List Record) → List Record
  | none => []
  | some l => if 0 < l.length then l else []

/-- The row loop of `extract_user_timelines` (kedro-nodes.py lines 26-31):
rows whose `username_twitter` is `NaN` are passed over; otherwise
`extract_tweets_from_user_timeline(api, screen_name=..., user_type=...)`
is called with its Python defaults. -/
def extract_user_timelines_go (api : TimelineCall → FetchOutcome) :
    List TimelineRow → Except PyError (List Record × List TimelineCall)
  | [] => Except.ok ([], [])
  | row :: rest =>
    match row.username_twitter with
    | none => extract_user_timelines_go api rest
    | some u =>
      match extract_tweets_from_user_timeline api u row.type 200 "extended"
          false false 10000 with
      | Except.error e => Except.error e
      | Except.ok res =>
        match extract_user_timelines_go api rest with
        | Except.error e => Except.error e
        | Except.ok (tbl, calls) =>
          Except.ok (keptRecords res ++ tbl,
            user_timeline_call u 200 "extended" false false 10000 :: calls)

/-- `extract_user_timelines` (kedro-nodes.py lines 7-36).  The middle
component is the caller's input table after the run (unchanged: this node
never writes to `data`). -/
def extract_user_timelines (api : TimelineCall → FetchOutcome)
    (data : List TimelineRow) :
    Except PyError (List Record × List TimelineRow × List TimelineCall) :=
  match extract_user_timelines_go api data with
  | Except.error e => Except.error e
  | Except.ok (tbl, calls) => Except.ok (tbl, data, calls)

/-- The row loop of `extract_replies_to_users` (kedro-nodes.py lines
58-69): per kept row, one call with `language='en'` then one with
`language='es'`, both with `extraction_size=10000`. -/
def extract_replies_to_users_go (api : SearchCall → FetchOutcome) :
    List UserRow → Except PyError (List Record × List SearchCall)
  | [] => Except.ok ([], [])
  | row :: rest =>
    match row.username_twitter with
    | none => extract_replies_to_users_go api rest
    | some u =>
      match extract_replies_to_user api u 200 "extended" "en" "mixed"
          module_load_date 10000 with
      | Except.error e => Except.error e
      | Except.ok en =>
        match extract_replies_to_user api u 200 "extended" "es" "mixed"
            module_load_date 10000 with
        | Except.error e => Except.error e
        | Except.ok es =>
          match extract_replies_to_users_go api rest with
          | Except.error e => Except.error e
          | Except.ok (tbl, calls) =>
            Except.ok (keptRecords en ++ keptRecords es ++ tbl,
              replies_call u 200 "extended" "en" "mixed" module_load_date
                10000 ::
              replies_call u 200 "extended" "es" "mixed" module_load_date
                10000 :: calls)

/-- `extract_replies_to_users` (kedro-nodes.py lines 39-74). -/
def extract_replies_to_users (api : SearchCall → FetchOutcome)
    (data : List UserRow) :
    Except PyError (List Record × List UserRow × List SearchCall) :=
  match extract_replies_to_users_go api data with
  | Except.error e => Except.error e
  | Except.ok (tbl, calls) => Except.ok (tbl, data, calls)

/-- The row loop of `extract_search_users` (kedro-nodes.py lines 96-107). -/
def extract_search_users_go (api : SearchCall → FetchOutcome) :
    List UserRow → Except PyError (List Record × List SearchCall)
  | [] => Except.ok ([], [])
  | row :: rest =>
    match row.username_twitter with
    | none => extract_search_users_go api rest
    | some u =>
      match extract_tweets_from_search api u 200 "extended" "en" "mixed"
          module_load_date 10000 with
      | Except.error e => Except.error e
      | Except.ok en =>
        match extract_tweets_from_search api u 200 "extended" "es" "mixed"
            module_load_date 10000 with
        | Except.error e => Except.error e
        | Except.ok es =>
          match extract_search_users_go api rest with
          | Except.error e => Except.error e
          | Except.ok (tbl, calls) =>
            Except.ok (keptRecords en ++ keptRecords es ++ tbl,
              search_call u 200 "extended" "en" "mixed" module_load_date
                10000 ::
              search_call u 200 "extended" "es" "mixed" module_load_date
                10000 :: calls)

/-- `extract_search_users` (kedro-nodes.py lines 77-112). -/
def extract_search_users (api : SearchCall → FetchOutcome)
    (data : List UserRow) :
    Except PyError (List Record × List UserRow × List SearchCall) :=
  match extract_search_users_go api data with
  | Except.error e => Except.error e
  | Except.ok (tbl, calls) => Except.ok (tbl, data, calls)

/-- `hashtag.replace('#', '')`: drop every `'#'` character. -/
def strip_hash (s : String) : String :=
  String.mk (s.data.filter (fun c => c ≠ '#'))

/-- The row loop of `extract_tweets_from_hashtags` (kedro-nodes.py lines
136-147): it iterates the mutated frame and guards on
`pd.notna(row['text'])`. -/
def extract_tweets_from_hashtags_go (api : SearchCall → FetchOutcome) :
    List HashtagRow → Except PyError (List Record × List SearchCall)
  | [] => Except.ok ([], [])
  | row :: rest =>
    match row.text with
    | none => extract_tweets_from_hashtags_go api rest
    | some tag =>
      match extract_tweets_from_hashtag api tag 200 "extended" "en" "mixed"
          module_load_date 10000 with
      | Except.error e => Except.error e
      | Except.ok en =>
        match extract_tweets_from_hashtag api tag 200 "extended" "es"
            "mixed" module_load_date 10000 with
        | Except.error e => Except.error e
        | Except.ok es =>
          match extract_tweets_from_hashtags_go api rest with
          | Except.error e => Except.error e
          | Except.ok (tbl, calls) =>
            Except.ok (keptRecords en ++ keptRecords es ++ tbl,
              hashtag_call tag 200 "extended" "en" "mixed" module_load_date
                10000 ::
              hashtag_call tag 200 "extended" "es" "mixed" module_load_date
                10000 :: calls)

/-- `extract_tweets_from_hashtags` (kedro-nodes.py lines 115-152).
`hashtags = data` aliases the caller's DataFrame, so
`hashtags['text'] = data['hashtag'].apply(lambda h: h.replace('#', ''))`
writes the `text` column into the caller's input object; the middle
component of the result is that mutated table. -/
def extract_tweets_from_hashtags (api : SearchCall → FetchOutcome)
    (data : List HashtagRow) :
    Except PyError (List Record × List HashtagRow × List SearchCall) :=
  match extract_tweets_from_hashtags_go api
      (data.map (fun r => HashtagRow.mk r.hashtag (some (strip_hash r.hashtag)))) with
  | Except.error e => Except.error e
  | Except.ok (tbl, calls) =>
    Except.ok (tbl,
      data.map (fun r => HashtagRow.mk r.hashtag (some (strip_hash r.hashtag))),
      calls)

/-- The row loop of `extract_tweets_from_queries` (kedro-nodes.py lines
174-184): no `pd.notna` guard, and BOTH calls pass `language='en'`
(line 178 assigns the `_es` variable from a call that requests `'en'`). -/
def extract_tweets_from_queries_go (api : SearchCall → FetchOutcome) :
    List QueryRow → Except PyError (List Record × List SearchCall)
  | [] => Except.ok ([], [])
  | row :: rest =>
    match extract_tweets_from_search api row.query 200 "extended" "en"
        "mixed" module_load_date 10000 with
    | Except.error e => Except.error e
    | Except.ok en =>
      match extract_tweets_from_search api row.query 200 "extended" "en"
          "mixed" module_load_date 10000 with
      | Except.error e => Except.error e
      | Except.ok es =>
        match extract_tweets_from_queries_go api rest with
        | Except.error e => Except.error e
        | Except.ok (tbl, calls) =>
          Except.ok (keptRecords en ++ keptRecords es ++ tbl,
            search_call row.query 200 "extended" "en" "mixed"
              module_load_date 10000 ::
            search_call row.query 200 "extended" "en" "mixed"
              module_load_date 10000 :: calls)

/-- `extract_tweets_from_queries` (kedro-nodes.py lines 155-189). -/
def extract_tweets_from_queries (api : SearchCall → FetchOutcome)
    (data : List QueryRow) :
    Except PyError (List Record × List QueryRow × List SearchCall) :=
  match extract_tweets_from_queries_go api data with
  | Except.error e => Except.error e
  | Except.ok (tbl, calls) => Except.ok (tbl, data, calls)

/-! ## Declared output schemas (the `columns=` lists of kedro-nodes.py) -/

/-- Columns of the timelines result table (kedro-nodes.py lines 34-36). -/
def user_timelines_columns : List String :=
  ["extracted_user", "type", "id", "created_at", "text", "likes",
   "retweets", "urls", "medias", "hashtags", "user_id", "user_screen_name",
   "user_verified", "user_followers", "user_following", "location"]

/-- Columns of the replies result table (kedro-nodes.py lines 72-74). -/
def replies_columns : List String :=
  ["extracted_user", "requested_language", "id", "created_at", "text",
   "language", "likes", "retweets", "urls", "medias", "hashtags",
   "user_id", "user_screen_name", "user_verified", "user_followers",
   "user_following", "location"]

/-- Columns of the search-users result table (kedro-nodes.py lines
110-112). -/
def search_users_columns : List String :=
  ["searched_user", "requested_language", "id", "created_at", "text",
   "language", "likes", "retweets", "urls", "medias", "hashtags",
   "user_id", "user_screen_name", "user_verified", "user_followers",
   "user_following", "location"]

/-- Columns of the hashtags result table (kedro-nodes.py lines 150-152). -/
def hashtags_columns : List String :=
  ["hashtag", "requested_language", "id", "created_at", "text",
   "language", "likes", "retweets", "urls", "medias", "hashtags",
   "user_id", "user_screen_name", "user_verified", "user_followers",
   "user_following", "location"]

/-- Columns of the queries result table (kedro-nodes.py lines 187-189). -/
def queries_columns : List String :=
  ["search_query", "requested_language", "id", "created_at", "text",
   "language", "likes", "retweets", "urls", "medias", "hashtags",
   "user_id", "user_screen_name", "user_verified", "user_followers",
   "user_following", "location"]

/-! ## Spec-side schema field maps (refinement comparison for the
column-order invariant) -/

/-- Modelled from the spec: the §6 timeline schema associates each column
name to a raw-item field ("the Raw Item's fields flattened positionally",
§3): the mode key first, then id / creation timestamp / full text /
engagement counts / the three entity collections / author metadata /
location (coerced to `""` when absent, §4.3). -/
def spec_timeline_field (screen_name user_type : String) (t : Tweet) :
    String → Value
  | "extracted_user" => Value.str screen_name
  | "type" => Value.str user_type
  | "id" => Value.str t.id_str
  | "created_at" => Value.str t.created_at
  | "text" => Value.str t.full_text
  | "likes" => Value.nat t.favorite_count
  | "retweets" => Value.nat t.retweet_count
  | "urls" => Value.entityList (t.entities.urls.getD [])
  | "medias" => Value.entityList (t.entities.media.getD [])
  | "hashtags" => Value.entityList (t.entities.hashtags.getD [])
  | "user_id" => Value.str t.user.id_str
  | "user_screen_name" => Value.str t.user.screen_name
  | "user_verified" => Value.bool t.user.verified
  | "user_followers" => Value.nat t.user.followers_count
  | "user_following" => Value.nat t.user.friends_count
  | "location" => Value.str (t.user.location.getD "")
  | _ => Value.pynone

/-- Modelled from the spec: the §6 schema of the three search-style modes
(replies / search / hashtag), with `modeKey` in the leading column and the
requested language second.  The `language` column holds what the source
stores there, `tweet.user.lang` — whether that matches the spec's intended
semantics for this column is settled separately (see the replies-language
theorem). -/
def spec_search_field (modeKey language : String) (t : Tweet) :
    String → Value
  | "extracted_user" => Value.str modeKey
  | "searched_user" => Value.str modeKey
  | "hashtag" => Value.str modeKey
  | "search_query" => Value.str modeKey
  | "requested_language" => Value.str language
  | "id" => Value.str t.id_str
  | "created_at" => Value.str t.created_at
  | "text" => Value.str t.full_text
  | "language" => Value.ofOptStr t.user.lang
  | "likes" => Value.nat t.favorite_count
  | "retweets" => Value.nat t.retweet_count
  | "urls" => Value.entityList (t.entities.urls.getD [])
  | "medias" => Value.entityList (t.entities.media.getD [])
  | "hashtags" => Value.entityList (t.entities.hashtags.getD [])
  | "user_id" => Value.str t.user.id_str
  | "user_screen_name" => Value.str t.user.screen_name
  | "user_verified" => Value.bool t.user.verified
  | "user_followers" => Value.nat t.user.followers_count
  | "user_following" => Value.nat t.user.friends_count
  | "location" => Value.str (t.user.location.getD "")
  | _ => Value.pynone

/-! ## Concrete fixtures -/

/-- A raw item with every nullable field present.  Its own declared
language (`lang`) is `"es"` while its author's profile language is
`"en"` — the two differ on purpose. -/
def tweet0 : Tweet :=
  ⟨"1001", "2022-01-01", "hello world", some "es", 3, 1,
   ⟨some [⟨"u1"⟩], none, some []⟩,
   ⟨"7", "bob", false, 10, 5, some "en", some "NYC"⟩⟩

/-- A raw item whose author has a null `location`. -/
def tweet_nil_location : Tweet :=
  ⟨"1002", "2022-01-02", "second", some "en", 0, 0,
   ⟨none, none, none⟩,
   ⟨"8", "carol", true, 2, 3, none, none⟩⟩

/-- An api environment whose every cursor completes with no items. -/
def apiEmptyT : TimelineCall → FetchOutcome := fun _ => FetchOutcome.ok []

/-- A search api environment whose every cursor completes with no items. -/
def apiEmptyS : SearchCall → FetchOutcome := fun _ => FetchOutcome.ok []

/-- An api environment whose cursor raises a `TweepyException` before
yielding any item. -/
def apiFailT : TimelineCall → FetchOutcome :=
  fun _ => FetchOutcome.failAfter []

/-- An api environment whose cursor yields `tweet0` and then raises a
`TweepyException`. -/
def apiFailAfterOneT : TimelineCall → FetchOutcome :=
  fun _ => FetchOutcome.failAfter [tweet0]

/-- The record the timeline mode builds from `tweet0` for user `"u"` of
type `"customer"`. -/
def timelineRec0 : Record :=
  [Value.str "u", Value.str "customer", Value.str "1001",
   Value.str "2022-01-01", Value.str "hello world", Value.nat 3,
   Value.nat 1, Value.entityList [⟨"u1"⟩], Value.entityList [],
   Value.entityList [], Value.str "7", Value.str "bob", Value.bool false,
   Value.nat 10, Value.nat 5, Value.str "NYC"]

/-- A search api environment whose every cursor yields exactly `tweet0`
and completes. -/
def apiOneS : SearchCall → FetchOutcome := fun _ => FetchOutcome.ok [tweet0]

/-- A timeline api environment whose every cursor yields one raw item with
a null author location and completes. -/
def apiNilLocT : TimelineCall → FetchOutcome :=
  fun _ => FetchOutcome.ok [tweet_nil_location]

/-- The record the hashtag mode builds from `tweet0` for tag `"sale"`,
requested language `"en"`. -/
def hashtagRec0 : Record :=
  [Value.str "#sale", Value.str "en", Value.str "1001",
   Value.str "2022-01-01", Value.str "hello world", Value.str "en",
   Value.nat 3, Value.nat 1, Value.entityList [⟨"u1"⟩],
   Value.entityList [], Value.entityList [], Value.str "7",
   Value.str "bob", Value.bool false, Value.nat 10, Value.nat 5,
   Value.str "NYC"]

/-- The record the replies mode builds from `tweet0` for username
`"acme"`, requested language `"es"`.  Slot 5 (the `language` column) holds
`tweet0.user.lang = "en"`, not `tweet0.lang = "es"`. -/
def repliesRec0 : Record :=
  [Value.str "acme", Value.str "es", Value.str "1001",
   Value.str "2022-01-01", Value.str "hello world", Value.str "en",
   Value.nat 3, Value.nat 1, Value.entityList [⟨"u1"⟩],
   Value.entityList [], Value.entityList [], Value.str "7",
   Value.str "bob", Value.bool false, Value.nat 10, Value.nat 5,
   Value.str "NYC"]

/-- Concrete credentials for the authentication scenarios. -/
def creds0 : Credentials := Credentials.mk "ck" "cs" "at" "ats"

deriving instance DecidableEq for Except

/-! ## Helper lemmas -/

theorem str_append_empty (s : String) : s ++ "" = s :=
  String.append_empty s

/-- Every record of a successful extraction result is the flattening of
some yielded tweet. -/
theorem flattenAll_mem (f : Tweet → Except PyError Record)
    (ts : List Tweet) (rs : List Record)
    (h : flattenAll f ts = Except.ok rs) :
    ∀ r ∈ rs, ∃ t, f t = Except.ok r := by
  induction ts generalizing rs with
  | nil =>
    simp only [flattenAll] at h
    cases h
    intro r hr
    cases hr
  | cons t ts ih =>
    simp only [flattenAll] at h
    cases hf : f t with
    | error e => rw [hf] at h; cases h
    | ok r0 =>
      rw [hf] at h
      cases hrest : flattenAll f ts with
      | error e => rw [hrest] at h; cases h
      | ok rs0 =>
        rw [hrest] at h
        cases h
        intro r hr
        cases hr with
        | head => exact ⟨t, hf⟩
        | tail _ hmem => exact ih rs0 hrest r hmem

/-- A successful non-`None` run of the comprehension-plus-except body
yields only flattenings of fetched tweets. -/
theorem runExtraction_ok_mem (f : Tweet → Except PyError Record)
    (o : FetchOutcome) (rs : List Record)
    (h : runExtraction f o = Except.ok (some rs)) :
    ∀ r ∈ rs, ∃ t, f t = Except.ok r := by
  cases o with
  | ok ts =>
    simp only [runExtraction] at h
    cases hfa : flattenAll f ts with
    | error e => rw [hfa] at h; cases h
    | ok rs0 =>
      rw [hfa] at h
      cases h
      exact flattenAll_mem f ts rs hfa
  | failAfter ts =>
    simp only [runExtraction] at h
    cases hfa : flattenAll f ts with
    | error e => rw [hfa] at h; cases h
    | ok rs0 => rw [hfa] at h; cases h

/-- Trace law for the timelines row loop: the cursor calls issued are one
per row whose `username_twitter` is present, in row order. -/
theorem extract_user_timelines_go_calls (api : TimelineCall → FetchOutcome)
    (rows : List TimelineRow) (tbl : List Record)
    (calls : List TimelineCall)
    (h : extract_user_timelines_go api rows = Except.ok (tbl, calls)) :
    calls = (rows.filter (fun r => r.username_twitter.isSome)).map
      (fun r => user_timeline_call (r.username_twitter.getD "") 200
        "extended" false false 10000) := by
  induction rows generalizing tbl calls with
  | nil =>
    simp only [extract_user_timelines_go] at h
    cases h
    rfl
  | cons row rest ih =>
    cases hu : row.username_twitter with
    | none =>
      simp only [extract_user_timelines_go, hu] at h
      simpa [hu] using ih tbl calls h
    | some u =>
      simp only [extract_user_timelines_go, hu] at h
      cases hx : extract_tweets_from_user_timeline api u row.type 200
          "extended" false false 10000 with
      | error e => rw [hx] at h; cases h
      | ok res =>
        rw [hx] at h
        cases hrec : extract_user_timelines_go api rest with
        | error e => rw [hrec] at h; cases h
        | ok p =>
          obtain ⟨tbl0, calls0⟩ := p
          rw [hrec] at h
          cases h
          simp [hu, ih tbl0 calls0 hrec]

/-- Trace law for the replies row loop: two cursor calls (`'en'` then
`'es'`) per row whose `username_twitter` is present. -/
theorem extract_replies_to_users_go_calls (api : SearchCall → FetchOutcome)
    (rows : List UserRow) (tbl : List Record) (calls : List SearchCall)
    (h : extract_replies_to_users_go api rows = Except.ok (tbl, calls)) :
    calls = (rows.filter (fun r => r.username_twitter.isSome)).flatMap
      (fun r =>
        [replies_call (r.username_twitter.getD "") 200 "extended" "en"
          "mixed" module_load_date 10000,
         replies_call (r.username_twitter.getD "") 200 "extended" "es"
          "mixed" module_load_date 10000]) := by
  induction rows generalizing tbl calls with
  | nil =>
    simp only [extract_replies_to_users_go] at h
    cases h
    rfl
  | cons row rest ih =>
    cases hu : row.username_twitter with
    | none =>
      simp only [extract_replies_to_users_go, hu] at h
      simpa [hu] using ih tbl calls h
    | some u =>
      simp only [extract_replies_to_users_go, hu] at h
      cases hx : extract_replies_to_user api u 200 "extended" "en" "mixed"
          module_load_date 10000 with
      | error e => rw [hx] at h; cases h
      | ok en =>
        rw [hx] at h
        cases hy : extract_replies_to_user api u 200 "extended" "es"
            "mixed" module_load_date 10000 with
        | error e => rw [hy] at h; cases h
        | ok es =>
          rw [hy] at h
          cases hrec : extract_replies_to_users_go api rest with
          | error e => rw [hrec] at h; cases h
          | ok p =>
            obtain ⟨tbl0, calls0⟩ := p
            rw [hrec] at h
            cases h
            simp [hu, ih tbl0 calls0 hrec]

/-- Trace law for the search-users row loop. -/
theorem extract_search_users_go_calls (api : SearchCall → FetchOutcome)
    (rows : List UserRow) (tbl : List Record) (calls : List SearchCall)
    (h : extract_search_users_go api rows = Except.ok (tbl, calls)) :
    calls = (rows.filter (fun r => r.username_twitter.isSome)).flatMap
      (fun r =>
        [search_call (r.username_twitter.getD "") 200 "extended" "en"
          "mixed" module_load_date 10000,
         search_call (r.username_twitter.getD "") 200 "extended" "es"
          "mixed" module_load_date 10000]) := by
  induction rows generalizing tbl calls with
  | nil =>
    simp only [extract_search_users_go] at h
    cases h
    rfl
  | cons row rest ih =>
    cases hu : row.username_twitter with
    | none =>
      simp only [extract_search_users_go, hu] at h
      simpa [hu] using ih tbl calls h
    | some u =>
      simp only [extract_search_users_go, hu] at h
      cases hx : extract_tweets_from_search api u 200 "extended" "en"
          "mixed" module_load_date 10000 with
      | error e => rw [hx] at h; cases h
      | ok en =>
        rw [hx] at h
        cases hy : extract_tweets_from_search api u 200 "extended" "es"
            "mixed" module_load_date 10000 with
        | error e => rw [hy] at h; cases h
        | ok es =>
          rw [hy] at h
          cases hrec : extract_search_users_go api rest with
          | error e => rw [hrec] at h; cases h
          | ok p =>
            obtain ⟨tbl0, calls0⟩ := p
            rw [hrec] at h
            cases h
            simp [hu, ih tbl0 calls0 hrec]

/-- Trace law for the hashtags row loop over the mutated frame. -/
theorem extract_tweets_from_hashtags_go_calls
    (api : SearchCall → FetchOutcome) (rows : List HashtagRow)
    (tbl : List Record) (calls : List SearchCall)
    (h : extract_tweets_from_hashtags_go api rows = Except.ok (tbl, calls)) :
    calls = (rows.filter (fun r => r.text.isSome)).flatMap
      (fun r =>
        [hashtag_call (r.text.getD "") 200 "extended" "en" "mixed"
          module_load_date 10000,
         hashtag_call (r.text.getD "") 200 "extended" "es" "mixed"
          module_load_date 10000]) := by
  induction rows generalizing tbl calls with
  | nil =>
    simp only [extract_tweets_from_hashtags_go] at h
    cases h
    rfl
  | cons row rest ih =>
    cases hu : row.text with
    | none =>
      simp only [extract_tweets_from_hashtags_go, hu] at h
      simpa [hu] using ih tbl calls h
    | some tag =>
      simp only [extract_tweets_from_hashtags_go, hu] at h
      cases hx : extract_tweets_from_hashtag api tag 200 "extended" "en"
          "mixed" module_load_date 10000 with
      | error e => rw [hx] at h; cases h
      | ok en =>
        rw [hx] at h
        cases hy : extract_tweets_from_hashtag api tag 200 "extended" "es"
            "mixed" module_load_date 10000 with
        | error e => rw [hy] at h; cases h
        | ok es =>
          rw [hy] at h
          cases hrec : extract_tweets_from_hashtags_go api rest with
          | error e => rw [hrec] at h; cases h
          | ok p =>
            obtain ⟨tbl0, calls0⟩ := p
            rw [hrec] at h
            cases h
            simp [hu, ih tbl0 calls0 hrec]

/-- Trace law for the queries row loop: every row — with no guard —
produces two cursor calls, both requesting language `'en'`. -/
theorem extract_tweets_from_queries_go_calls
    (api : SearchCall → FetchOutcome) (rows : List QueryRow)
    (tbl : List Record) (calls : List SearchCall)
    (h : extract_tweets_from_queries_go api rows = Except.ok (tbl, calls)) :
    calls = rows.flatMap
      (fun r =>
        [search_call r.query 200 "extended" "en" "mixed" module_load_date
          10000,
         search_call r.query 200 "extended" "en" "mixed" module_load_date
          10000]) := by
  induction rows generalizing tbl calls with
  | nil =>
    simp only [extract_tweets_from_queries_go] at h
    cases h
    rfl
  | cons row rest ih =>
    simp only [extract_tweets_from_queries_go] at h
    cases hx : extract_tweets_from_search api row.query 200 "extended"
        "en" "mixed" module_load_date 10000 with
    | error e => rw [hx] at h; cases h
    | ok en =>
      rw [hx] at h
      cases hrec : extract_tweets_from_queries_go api rest with
      | error e => rw [hrec] at h; cases h
      | ok p =>
        obtain ⟨tbl0, calls0⟩ := p
        rw [hrec] at h
        cases h
        simp [ih tbl0 calls0 hrec]

/-- Inversion for a successful timelines run: the returned frame is the
unchanged input and the row loop produced the table and trace. -/
theorem extract_user_timelines_inv (api : TimelineCall → FetchOutcome)
    (rows : List TimelineRow) (tbl : List Record)
    (frame : List TimelineRow) (calls : List TimelineCall)
    (h : extract_user_timelines api rows = Except.ok (tbl, frame, calls)) :
    frame = rows ∧
      extract_user_timelines_go api rows = Except.ok (tbl, calls) := by
  simp only [extract_user_timelines] at h
  cases hgo : extract_user_timelines_go api rows with
  | error e => rw [hgo] at h; cases h
  | ok p =>
    obtain ⟨tbl0, calls0⟩ := p
    rw [hgo] at h
    cases h
    exact ⟨rfl, rfl⟩

/-- Inversion for a successful replies run. -/
theorem extract_replies_to_users_inv (api : SearchCall → FetchOutcome)
    (rows : List UserRow) (tbl : List Record) (frame : List UserRow)
    (calls : List SearchCall)
    (h : extract_replies_to_users api rows = Except.ok (tbl, frame, calls)) :
    frame = rows ∧
      extract_replies_to_users_go api rows = Except.ok (tbl, calls) := by
  simp only [extract_replies_to_users] at h
  cases hgo : extract_replies_to_users_go api rows with
  | error e => rw [hgo] at h; cases h
  | ok p =>
    obtain ⟨tbl0, calls0⟩ := p
    rw [hgo] at h
    cases h
    exact ⟨rfl, rfl⟩

/-- Inversion for a successful search-users run. -/
theorem extract_search_users_inv (api : SearchCall → FetchOutcome)
    (rows : List UserRow) (tbl : List Record) (frame : List UserRow)
    (calls : List SearchCall)
    (h : extract_search_users api rows = Except.ok (tbl, frame, calls)) :
    frame = rows ∧
      extract_search_users_go api rows = Except.ok (tbl, calls) := by
  simp only [extract_search_users] at h
  cases hgo : extract_search_users_go api rows with
  | error e => rw [hgo] at h; cases h
  | ok p =>
    obtain ⟨tbl0, calls0⟩ := p
    rw [hgo] at h
    cases h
    exact ⟨rfl, rfl⟩

/-- Inversion for a successful hashtags run: the returned frame is the
input with the `text` column written. -/
theorem extract_tweets_from_hashtags_inv (api : SearchCall → FetchOutcome)
    (rows : List HashtagRow) (tbl : List Record) (frame : List HashtagRow)
    (calls : List SearchCall)
    (h : extract_tweets_from_hashtags api rows =
      Except.ok (tbl, frame, calls)) :
    frame = rows.map
        (fun r => HashtagRow.mk r.hashtag (some (strip_hash r.hashtag))) ∧
      extract_tweets_from_hashtags_go api
        (rows.map
          (fun r => HashtagRow.mk r.hashtag (some (strip_hash r.hashtag)))) =
        Except.ok (tbl, calls) := by
  simp only [extract_tweets_from_hashtags] at h
  cases hgo : extract_tweets_from_hashtags_go api
      (rows.map
        (fun r => HashtagRow.mk r.hashtag (some (strip_hash r.hashtag)))) with
  | error e => rw [hgo] at h; cases h
  | ok p =>
    obtain ⟨tbl0, calls0⟩ := p
    rw [hgo] at h
    cases h
    exact ⟨rfl, rfl⟩

/-- Writing the `text` column makes every row of the mutated hashtags
frame pass the `pd.notna` guard, so the trace over the mutated frame is
two calls per original row, keyed by the stripped hashtag. -/
theorem hashtag_mutated_calls (rows : List HashtagRow) :
    ((rows.map
        (fun r => HashtagRow.mk r.hashtag (some (strip_hash r.hashtag)))).filter
      (fun r => r.text.isSome)).flatMap
      (fun r =>
        [hashtag_call (r.text.getD "") 200 "extended" "en" "mixed"
          module_load_date 10000,
         hashtag_call (r.text.getD "") 200 "extended" "es" "mixed"
          module_load_date 10000]) =
    rows.flatMap
      (fun r =>
        [hashtag_call (strip_hash r.hashtag) 200 "extended" "en" "mixed"
          module_load_date 10000,
         hashtag_call (strip_hash r.hashtag) 200 "extended" "es" "mixed"
          module_load_date 10000]) := by
  induction rows with
  | nil => rfl
  | cons r rs ih => simp [ih]

/-- Inversion for a successful queries run. -/
theorem extract_tweets_from_queries_inv (api : SearchCall → FetchOutcome)
    (rows : List QueryRow) (tbl : List Record) (frame : List QueryRow)
    (calls : List SearchCall)
    (h : extract_tweets_from_queries api rows =
      Except.ok (tbl, frame, calls)) :
    frame = rows ∧
      extract_tweets_from_queries_go api rows = Except.ok (tbl, calls) := by
  simp only [extract_tweets_from_queries] at h
  cases hgo : extract_tweets_from_queries_go api rows with
  | error e => rw [hgo] at h; cases h
  | ok p =>
    obtain ⟨tbl0, calls0⟩ := p
    rw [hgo] at h
    cases h
    exact ⟨rfl, rfl⟩

/-! ## Claim theorems -/

/-- Claim C1, counterexample: when the timeline fetch fails with a Tweepy
error before yielding any item, `extract_tweets_from_user_timeline`
returns Python `None` (`Except.ok none`), not an empty sequence — the
claim that every mode returns an empty sequence and never `None` on a
protocol-level failure is false, so a caller taking the length of the bare
result would crash. -/
theorem C1_counterexample :
    extract_tweets_from_user_timeline apiFailT "u" "customer" 200
      "extended" false false 10000 = Except.ok none ∧
    (Except.ok none : Except PyError (Option (List Record))) ≠
      Except.ok (some []) := by
  decide

/-- Claim C1 as amended: for every extraction mode, whenever the fetch
fails with a protocol-level (Tweepy) error having yielded nothing, the
extraction function returns `None` — not an empty sequence — which is why
the orchestrator callers guard every result with
`x is not None and len(x) > 0` before using it. -/
theorem C1_failure_returns_none :
    (∀ api sn ut c m er ir es,
      api (user_timeline_call sn c m er ir es) = FetchOutcome.failAfter [] →
      extract_tweets_from_user_timeline api sn ut c m er ir es =
        Except.ok none) ∧
    (∀ api u c m lang rt ud es,
      api (replies_call u c m lang rt ud es) = FetchOutcome.failAfter [] →
      extract_replies_to_user api u c m lang rt ud es = Except.ok none) ∧
    (∀ api q c m lang rt ud es,
      api (search_call q c m lang rt ud es) = FetchOutcome.failAfter [] →
      extract_tweets_from_search api q c m lang rt ud es =
        Except.ok none) ∧
    (∀ api tag c m lang rt ud es,
      api (hashtag_call tag c m lang rt ud es) = FetchOutcome.failAfter [] →
      extract_tweets_from_hashtag api tag c m lang rt ud es =
        Except.ok none) := by
  refine ⟨?_, ?_, ?_, ?_⟩ <;>
    intro api a b c d e f g h <;>
    simp [extract_tweets_from_user_timeline, extract_replies_to_user,
      extract_tweets_from_search, extract_tweets_from_hashtag, h,
      runExtraction, flattenAll]

/-- Witness for C1: a concrete failing fetch for the timeline mode. -/
theorem C1_witness :
    extract_tweets_from_user_timeline apiFailT "u" "customer" 200
      "extended" false false 10000 = Except.ok none :=
  C1_failure_returns_none.1 apiFailT "u" "customer" 200 "extended" false
    false 10000 rfl

/-- Claim C2, counterexample: the timeline fetch yields one good item
(`tweet0`, whose flattening is `timelineRec0`) and then raises; the claim
says the mode returns exactly that one record, but the list comprehension
is aborted by the exception and the function returns `None`, discarding
the partial result. -/
theorem C2_counterexample :
    flatten_timeline_tweet "u" "customer" tweet0 =
      Except.ok timelineRec0 ∧
    extract_tweets_from_user_timeline apiFailAfterOneT "u" "customer" 200
      "extended" false false 10000 = Except.ok none ∧
    (Except.ok none : Except PyError (Option (List Record))) ≠
      Except.ok (some [timelineRec0]) := by
  decide

/-- Claim C2 as amended: for every extraction mode, if the fetch raises a
Tweepy error after yielding items `ts` (all of which flatten without a
`TypeError`), the already-produced partial result is NOT preserved: the
whole extraction returns `None`. -/
theorem C2_partial_results_discarded :
    (∀ api sn ut c m er ir es ts rs,
      api (user_timeline_call sn c m er ir es) =
        FetchOutcome.failAfter ts →
      flattenAll (flatten_timeline_tweet sn ut) ts = Except.ok rs →
      extract_tweets_from_user_timeline api sn ut c m er ir es =
        Except.ok none) ∧
    (∀ api u c m lang rt ud es ts rs,
      api (replies_call u c m lang rt ud es) = FetchOutcome.failAfter ts →
      flattenAll (flatten_reply_tweet u lang) ts = Except.ok rs →
      extract_replies_to_user api u c m lang rt ud es = Except.ok none) ∧
    (∀ api q c m lang rt ud es ts rs,
      api (search_call q c m lang rt ud es) = FetchOutcome.failAfter ts →
      flattenAll (flatten_search_tweet q lang) ts = Except.ok rs →
      extract_tweets_from_search api q c m lang rt ud es =
        Except.ok none) ∧
    (∀ api tag c m lang rt ud es ts rs,
      api (hashtag_call tag c m lang rt ud es) =
        FetchOutcome.failAfter ts →
      flattenAll (flatten_hashtag_tweet tag lang) ts = Except.ok rs →
      extract_tweets_from_hashtag api tag c m lang rt ud es =
        Except.ok none) := by
  refine ⟨?_, ?_, ?_, ?_⟩ <;>
    intro api a b c d e f g ts rs h hf <;>
    simp [extract_tweets_from_user_timeline, extract_replies_to_user,
      extract_tweets_from_search, extract_tweets_from_hashtag, h,
      runExtraction, hf]

/-- Witness for C2: one item is yielded and flattens fine, then the cursor
raises; the result is `None`. -/
theorem C2_witness :
    extract_tweets_from_user_timeline apiFailAfterOneT "u" "customer" 200
      "extended" false false 10000 = Except.ok none :=
  C2_partial_results_discarded.1 apiFailAfterOneT "u" "customer" 200
    "extended" false false 10000 [tweet0] [timelineRec0] rfl (by decide)

/-- Claim C3, counterexample: a blank (empty-string) query is not skipped
— `extract_tweets_from_queries` has no guard at all and issues two
extraction calls for the row `{query: ""}`, where the claim requires
zero. -/
theorem C3_counterexample :
    extract_tweets_from_queries apiEmptyS [QueryRow.mk ""] =
      Except.ok ([], [QueryRow.mk ""],
        [search_call "" 200 "extended" "en" "mixed" module_load_date 10000,
         search_call "" 200 "extended" "en" "mixed" module_load_date
           10000]) ∧
    [search_call "" 200 "extended" "en" "mixed" module_load_date 10000,
     search_call "" 200 "extended" "en" "mixed" module_load_date
       10000].length ≠ 0 := by
  decide

/-- Claim C3 as amended: the timelines, replies and search-users
orchestrators skip exactly the rows whose `username_twitter` is missing
(`NaN`/`None`) and call extraction for every other row (blank-but-present
strings included); the hashtags orchestrator processes every row (the
written `text` column is always present); the queries orchestrator applies
no skip at all and issues two calls per row unconditionally.  In
particular, on `[{username: "alice"}, {username: None}]` the timelines
orchestrator issues exactly one extraction call, for `"alice"`. -/
theorem C3_missing_keys_skipped :
    (∀ api rows tbl frame calls,
      extract_user_timelines api rows = Except.ok (tbl, frame, calls) →
      calls = (rows.filter (fun r => r.username_twitter.isSome)).map
        (fun r => user_timeline_call (r.username_twitter.getD "") 200
          "extended" false false 10000)) ∧
    (∀ api rows tbl frame calls,
      extract_replies_to_users api rows = Except.ok (tbl, frame, calls) →
      calls = (rows.filter (fun r => r.username_twitter.isSome)).flatMap
        (fun r =>
          [replies_call (r.username_twitter.getD "") 200 "extended" "en"
            "mixed" module_load_date 10000,
           replies_call (r.username_twitter.getD "") 200 "extended" "es"
            "mixed" module_load_date 10000])) ∧
    (∀ api rows tbl frame calls,
      extract_search_users api rows = Except.ok (tbl, frame, calls) →
      calls = (rows.filter (fun r => r.username_twitter.isSome)).flatMap
        (fun r =>
          [search_call (r.username_twitter.getD "") 200 "extended" "en"
            "mixed" module_load_date 10000,
           search_call (r.username_twitter.getD "") 200 "extended" "es"
            "mixed" module_load_date 10000])) ∧
    (∀ api rows tbl frame calls,
      extract_tweets_from_hashtags api rows =
        Except.ok (tbl, frame, calls) →
      calls = rows.flatMap
        (fun r =>
          [hashtag_call (strip_hash r.hashtag) 200 "extended" "en" "mixed"
            module_load_date 10000,
           hashtag_call (strip_hash r.hashtag) 200 "extended" "es" "mixed"
            module_load_date 10000])) ∧
    (∀ api rows tbl frame calls,
      extract_tweets_from_queries api rows =
        Except.ok (tbl, frame, calls) →
      calls = rows.flatMap
        (fun r =>
          [search_call r.query 200 "extended" "en" "mixed"
            module_load_date 10000,
           search_call r.query 200 "extended" "en" "mixed"
            module_load_date 10000])) ∧
    extract_user_timelines apiEmptyT
        [TimelineRow.mk (some "alice") "customer",
         TimelineRow.mk none "competitor"] =
      Except.ok ([],
        [TimelineRow.mk (some "alice") "customer",
         TimelineRow.mk none "competitor"],
        [user_timeline_call "alice" 200 "extended" false false 10000]) := by
  refine ⟨?_, ?_, ?_, ?_, ?_, by decide⟩
  · intro api rows tbl frame calls h
    obtain ⟨-, hgo⟩ := extract_user_timelines_inv api rows tbl frame calls h
    exact extract_user_timelines_go_calls api rows tbl calls hgo
  · intro api rows tbl frame calls h
    obtain ⟨-, hgo⟩ :=
      extract_replies_to_users_inv api rows tbl frame calls h
    exact extract_replies_to_users_go_calls api rows tbl calls hgo
  · intro api rows tbl frame calls h
    obtain ⟨-, hgo⟩ := extract_search_users_inv api rows tbl frame calls h
    exact extract_search_users_go_calls api rows tbl calls hgo
  · intro api rows tbl frame calls h
    obtain ⟨-, hgo⟩ :=
      extract_tweets_from_hashtags_inv api rows tbl frame calls h
    exact (extract_tweets_from_hashtags_go_calls api _ tbl calls hgo).trans
      (hashtag_mutated_calls rows)
  · intro api rows tbl frame calls h
    obtain ⟨-, hgo⟩ :=
      extract_tweets_from_queries_inv api rows tbl frame calls h
    exact extract_tweets_from_queries_go_calls api rows tbl calls hgo

/-- Witness for C3: the alice/None scenario through the general trace
law. -/
theorem C3_witness :
    [user_timeline_call "alice" 200 "extended" false false 10000] =
      ([TimelineRow.mk (some "alice") "customer",
        TimelineRow.mk none "competitor"].filter
          (fun r => r.username_twitter.isSome)).map
        (fun r => user_timeline_call (r.username_twitter.getD "") 200
          "extended" false false 10000) :=
  C3_missing_keys_skipped.1 apiEmptyT
    [TimelineRow.mk (some "alice") "customer",
     TimelineRow.mk none "competitor"]
    []
    [TimelineRow.mk (some "alice") "customer",
     TimelineRow.mk none "competitor"]
    [user_timeline_call "alice" 200 "extended" false false 10000]
    (by decide)

/-- Claim C4: the dual-language query orchestration is broken — for the
input row `{query: "brand"}` the queries orchestrator issues two
extraction calls BOTH requesting language `'en'` (kedro-nodes.py line 178
assigns the `_es` variable from a call passing `language='en'`), so no
`'es'` request is ever made, contradicting the one-request-per-configured-
language contract that the replies / search-users / hashtags orchestrators
honour and that the variable naming shows was intended. -/
theorem C4_queries_same_language_twice :
    extract_tweets_from_queries apiEmptyS [QueryRow.mk "brand"] =
      Except.ok ([], [QueryRow.mk "brand"],
        [search_call "brand" 200 "extended" "en" "mixed" module_load_date
          10000,
         search_call "brand" 200 "extended" "en" "mixed" module_load_date
          10000]) ∧
    (search_call "brand" 200 "extended" "en" "mixed" module_load_date
      10000).lang = "en" ∧
    ¬ ∃ c ∈ [search_call "brand" 200 "extended" "en" "mixed"
        module_load_date 10000,
      search_call "brand" 200 "extended" "en" "mixed" module_load_date
        10000], c.lang = "es" := by
  decide

/-- Claim C5: flattening does NOT coerce a null author location to the
empty string — `tweet.user.location + ''` raises a `TypeError` that
`except TweepyException` does not catch, so an extraction over a raw item
with a null location propagates the error instead of producing a record
(shown here for the timeline and replies modes). -/
theorem C5_null_location_raises :
    tweet_nil_location.user.location = none ∧
    extract_tweets_from_user_timeline apiNilLocT "u" "customer" 200
      "extended" false false 10000 = Except.error PyError.typeError ∧
    extract_replies_to_user (fun _ => FetchOutcome.ok [tweet_nil_location])
      "acme" 200 "extended" "en" "mixed" module_load_date 10000 =
      Except.error PyError.typeError := by
  decide

set_option maxHeartbeats 1000000 in
/-- Claim C6: every record an extraction mode can successfully produce has
the arity of that mode's declared schema (16 columns for the timeline
mode, 17 for replies / search / hashtag), and the fields stand positionally
in the declared column order: the flattened tuple equals the schema column
list mapped through the per-column field association; and every record of
a successful result is the flattening of some fetched raw item. -/
theorem C6_record_arity_and_order :
    (∀ sn ut t r, flatten_timeline_tweet sn ut t = Except.ok r →
      r = user_timelines_columns.map (spec_timeline_field sn ut t) ∧
      r.length = 16) ∧
    (∀ u lang t r, flatten_reply_tweet u lang t = Except.ok r →
      r = replies_columns.map (spec_search_field u lang t) ∧
      r.length = 17) ∧
    (∀ q lang t r, flatten_search_tweet q lang t = Except.ok r →
      r = search_users_columns.map (spec_search_field q lang t) ∧
      r = queries_columns.map (spec_search_field q lang t) ∧
      r.length = 17) ∧
    (∀ tag lang t r, flatten_hashtag_tweet tag lang t = Except.ok r →
      r = hashtags_columns.map (spec_search_field ("#" ++ tag) lang t) ∧
      r.length = 17) ∧
    (∀ f o rs, runExtraction f o = Except.ok (some rs) →
      ∀ r ∈ rs, ∃ t, f t = Except.ok r) := by
  refine ⟨?_, ?_, ?_, ?_, runExtraction_ok_mem⟩
  · intro sn ut t r h
    cases hloc : t.user.location with
    | none => simp [flatten_timeline_tweet, hloc] at h
    | some loc =>
      simp only [flatten_timeline_tweet, hloc] at h
      cases h
      refine ⟨?_, rfl⟩
      simp [user_timelines_columns, spec_timeline_field, hloc,
        str_append_empty]
  · intro u lang t r h
    cases hloc : t.user.location with
    | none => simp [flatten_reply_tweet, hloc] at h
    | some loc =>
      simp only [flatten_reply_tweet, hloc] at h
      cases h
      refine ⟨?_, rfl⟩
      simp [replies_columns, spec_search_field, hloc, str_append_empty]
  · intro q lang t r h
    cases hloc : t.user.location with
    | none => simp [flatten_search_tweet, hloc] at h
    | some loc =>
      simp only [flatten_search_tweet, hloc] at h
      cases h
      refine ⟨?_, ?_, rfl⟩
      · simp [search_users_columns, spec_search_field, hloc,
          str_append_empty]
      · simp [queries_columns, spec_search_field, hloc, str_append_empty]
  · intro tag lang t r h
    cases hloc : t.user.location with
    | none => simp [flatten_hashtag_tweet, hloc] at h
    | some loc =>
      simp only [flatten_hashtag_tweet, hloc] at h
      cases h
      refine ⟨?_, rfl⟩
      simp [hashtags_columns, spec_search_field, hloc, str_append_empty]

/-- Witness for C6: the timeline record built from `tweet0`. -/
theorem C6_witness :
    timelineRec0 = user_timelines_columns.map
        (spec_timeline_field "u" "customer" tweet0) ∧
      timelineRec0.length = 16 :=
  C6_record_arity_and_order.1 "u" "customer" tweet0 timelineRec0
    (by decide)

/-- Claim C7: for every tag, the hashtag mode queries the remote API for
the marker-prefixed tag (`q = "#" ++ tag`), and the leading (mode-key)
field of every record it successfully produces is exactly that
marker-prefixed tag. -/
theorem C7_hashtag_query_and_key (tag : String) (c : Nat)
    (m lang rt ud : String) (es : Nat) :
    (hashtag_call tag c m lang rt ud es).q = "#" ++ tag ∧
    ∀ api recs,
      extract_tweets_from_hashtag api tag c m lang rt ud es =
        Except.ok (some recs) →
      ∀ r ∈ recs, r.head? = some (Value.str ("#" ++ tag)) := by
  refine ⟨rfl, ?_⟩
  intro api recs h r hr
  obtain ⟨t, ht⟩ := runExtraction_ok_mem _ _ _ h r hr
  cases hloc : t.user.location with
  | none => simp [flatten_hashtag_tweet, hloc] at ht
  | some loc =>
    simp only [flatten_hashtag_tweet, hloc] at ht
    cases ht
    rfl

/-- Witness for C7: tag `"sale"` gives query `"#sale"`, and the record
built from `tweet0` leads with `"#sale"`. -/
theorem C7_witness :
    (hashtag_call "sale" 200 "extended" "en" "mixed" module_load_date
      10000).q = "#sale" ∧
    hashtagRec0.head? = some (Value.str "#sale") :=
  ⟨(C7_hashtag_query_and_key "sale" 200 "extended" "en" "mixed"
      module_load_date 10000).1,
   (C7_hashtag_query_and_key "sale" 200 "extended" "en" "mixed"
      module_load_date 10000).2 apiOneS [hashtagRec0] (by decide)
     hashtagRec0 (by decide)⟩

/-- Claim C8, counterexample: `tweet0`'s own declared language is `"es"`
but the record the replies mode builds from it carries `"en"` — the
author's profile language (`tweet.user.lang`) — in the `language` slot
(index 5), so the normalized record does not carry the replying post's own
declared language. -/
theorem C8_counterexample :
    extract_replies_to_user apiOneS "acme" 200 "extended" "es" "mixed"
      module_load_date 10000 = Except.ok (some [repliesRec0]) ∧
    repliesRec0[5]? = some (Value.str "en") ∧
    tweet0.lang = some "es" ∧
    repliesRec0[5]? ≠ some (Value.ofOptStr tweet0.lang) := by
  decide

/-- Claim C8 as amended: the `language` field (slot 5) of every normalized
replies record is the replying USER's profile language, `tweet.user.lang`
— not the replying post's own declared language (`tweet.lang`, which the
source never reads), and distinct from the requested search language
filter. -/
theorem C8_language_is_user_lang (u lang : String) (t : Tweet)
    (r : Record) (h : flatten_reply_tweet u lang t = Except.ok r) :
    r[5]? = some (Value.ofOptStr t.user.lang) := by
  cases hloc : t.user.location with
  | none => simp [flatten_reply_tweet, hloc] at h
  | some loc =>
    simp only [flatten_reply_tweet, hloc] at h
    cases h
    rfl

/-- Witness for C8: the record built from `tweet0` carries `tweet0`'s
author profile language. -/
theorem C8_witness :
    repliesRec0[5]? = some (Value.ofOptStr tweet0.user.lang) :=
  C8_language_is_user_lang "acme" "es" tweet0 repliesRec0 (by decide)

/-- Claim C9, counterexample: when the tweepy OAuth setup raises,
`get_auth` prints a diagnostic and returns Python `None` — not any
`AuthError` value (the source defines no such type); the failure is
signalled to the caller only by the bare `None`. -/
theorem C9_counterexample :
    get_auth (fun _ => some "401 Unauthorized") creds0 =
      (none, ["Error authenticating with Twitter API",
        "401 Unauthorized"]) ∧
    (get_auth (fun _ => some "401 Unauthorized") creds0).1 = none := by
  decide

/-- Claim C9 as amended: on an OAuth-setup failure `get_auth` logs a
diagnostic (the error banner plus the exception text) and returns `None`
instead of a dedicated `AuthError` value, without crashing; on success it
returns a handle with `wait_on_rate_limit` enabled — so the caller can
distinguish failure from success by the returned value (`None` is never a
handle). -/
theorem C9_auth_failure_returns_none :
    (∀ f c e, f c = some e →
      get_auth f c = (none, ["Error authenticating with Twitter API", e])) ∧
    (∀ f c, f c = none →
      get_auth f c = (some (APIHandle.mk c true),
        ["Successfully authenticated with the Twitter API"])) ∧
    (∀ h : APIHandle, (none : Option APIHandle) ≠ some h) := by
  refine ⟨?_, ?_, ?_⟩
  · intro f c e h
    simp [get_auth, h]
  · intro f c h
    simp [get_auth, h]
  · intro h hc
    cases hc

/-- Witness for C9: a concrete failing OAuth setup. -/
theorem C9_witness :
    get_auth (fun _ => some "boom") creds0 =
      (none, ["Error authenticating with Twitter API", "boom"]) :=
  C9_auth_failure_returns_none.1 (fun _ => some "boom") creds0 "boom" rfl

/-- Claim C10: the hashtags orchestrator writes the `text` column (the tag
with `'#'` stripped) into the caller's input table before iterating, so
the input object observed after a successful run is the mutated frame —
concretely, `[{hashtag: "#sale"}]` comes back with `text = "sale"`, which
differs from the frame passed in — while the timelines, replies,
search-users and queries orchestrators return the caller's input
unchanged. -/
theorem C10_hashtags_mutates_input :
    (∀ api rows tbl frame calls,
      extract_tweets_from_hashtags api rows =
        Except.ok (tbl, frame, calls) →
      frame = rows.map
        (fun r => HashtagRow.mk r.hashtag (some (strip_hash r.hashtag)))) ∧
    (extract_tweets_from_hashtags apiEmptyS [HashtagRow.mk "#sale" none] =
      Except.ok ([], [HashtagRow.mk "#sale" (some "sale")],
        [hashtag_call "sale" 200 "extended" "en" "mixed" module_load_date
          10000,
         hashtag_call "sale" 200 "extended" "es" "mixed" module_load_date
          10000]) ∧
      [HashtagRow.mk "#sale" (some "sale")] ≠
        [HashtagRow.mk "#sale" none]) ∧
    (∀ api rows tbl frame calls,
      extract_user_timelines api rows = Except.ok (tbl, frame, calls) →
      frame = rows) ∧
    (∀ api rows tbl frame calls,
      extract_replies_to_users api rows = Except.ok (tbl, frame, calls) →
      frame = rows) ∧
    (∀ api rows tbl frame calls,
      extract_search_users api rows = Except.ok (tbl, frame, calls) →
      frame = rows) ∧
    (∀ api rows tbl frame calls,
      extract_tweets_from_queries api rows =
        Except.ok (tbl, frame, calls) →
      frame = rows) := by
  refine ⟨?_, by decide, ?_, ?_, ?_, ?_⟩
  · intro api rows tbl frame calls h
    exact (extract_tweets_from_hashtags_inv api rows tbl frame calls h).1
  · intro api rows tbl frame calls h
    exact (extract_user_timelines_inv api rows tbl frame calls h).1
  · intro api rows tbl frame calls h
    exact (extract_replies_to_users_inv api rows tbl frame calls h).1
  · intro api rows tbl frame calls h
    exact (extract_search_users_inv api rows tbl frame calls h).1
  · intro api rows tbl frame calls h
    exact (extract_tweets_from_queries_inv api rows tbl frame calls h).1

/-- Witness for C10: the concrete one-row hashtags run, through the
general mutation law. -/
theorem C10_witness :
    [HashtagRow.mk "#sale" (some "sale")] =
      [HashtagRow.mk "#sale" none].map
        (fun r => HashtagRow.mk r.hashtag (some (strip_hash r.hashtag))) :=
  C10_hashtags_mutates_input.1 apiEmptyS [HashtagRow.mk "#sale" none] []
    [HashtagRow.mk "#sale" (some "sale")]
    [hashtag_call "sale" 200 "extended" "en" "mixed" module_load_date
      10000,
     hashtag_call "sale" 200 "extended" "es" "mixed" module_load_date
      10000]
    (by decide)

end DataThief
